import Mathlib

/-!
Shallow embedding of `blogicum/blog/views.py` (a Django blog application).

Each handler in the source performs a lookup (`get_object_or_404`), an
optional ownership check, an optional form-driven mutation, and finishes by
rendering a template or redirecting.  We model the relational store as lists
of records, `get_object_or_404` as `List.find?` (with `none` meaning the
not-found outcome), renders and redirects as constructors of `HResult`, and
mutating handlers as functions returning the response together with the
updated store.  `datetime.now()` is passed in as an explicit `now` parameter.
`request.user` is an `Option Nat` (user id; `none` is the anonymous user,
which compares unequal to every author).  Django model-instance equality is
primary-key equality, so foreign keys are carried as ids.
-/

namespace Blogicum

/-- Timestamps (`pub_date`, `datetime.now()`) as integers. -/
abbrev Time := Int

structure Category where
  id : Nat
  slug : String
  is_published : Bool
deriving DecidableEq

structure Post where
  id : Nat
  author : Nat
  title : String
  text : String
  category : Category
  pub_date : Time
  is_published : Bool
deriving DecidableEq

structure Comment where
  id : Nat
  author : Nat
  post : Nat
  text : String
deriving DecidableEq

structure User where
  id : Nat
  username : String
deriving DecidableEq

/-- The relational store backing the ORM. List order is insertion order. -/
structure Store where
  posts : List Post
  comments : List Comment
  categories : List Category
  users : List User
deriving DecidableEq

/-- A Django filter kwargs dictionary, restricted to the keys this code
passes: `is_published`, `category__is_published`, `pub_date__lte`,
`author`, `category`.  `none` means the key is absent. -/
structure Filters where
  is_published : Option Bool := none
  category_is_published : Option Bool := none
  pub_date_lte : Option Time := none
  author : Option Nat := none
  category : Option Category := none
deriving DecidableEq

/-- Absent key matches everything; present key requires equality. -/
def matchOpt {α : Type} [BEq α] (o : Option α) (v : α) : Bool :=
  match o with
  | none => true
  | some x => x == v

/-- Whether a post satisfies a filter kwargs dictionary
(`Post.objects.filter(**kwargs)`). -/
def matchesFilters (f : Filters) (p : Post) : Bool :=
  matchOpt f.is_published p.is_published &&
  matchOpt f.category_is_published p.category.is_published &&
  (match f.pub_date_lte with
   | none => true
   | some t => decide (p.pub_date ≤ t)) &&
  matchOpt f.author p.author &&
  matchOpt f.category p.category

/-- Python dict merge `{**base, **extra}`: `extra` wins on key collision. -/
def orOpt {α : Type} : Option α → Option α → Option α
  | some x, _ => some x
  | none, y => y

def mergeFilters (base extra : Filters) : Filters :=
  { is_published := orOpt extra.is_published base.is_published,
    category_is_published :=
      orOpt extra.category_is_published base.category_is_published,
    pub_date_lte := orOpt extra.pub_date_lte base.pub_date_lte,
    author := orOpt extra.author base.author,
    category := orOpt extra.category base.category }

/-- Ordering used by `order_by('-pub_date')`: newest first. -/
def postGe (a b : Post) : Prop := b.pub_date ≤ a.pub_date

instance : DecidableRel postGe :=
  fun a b => inferInstanceAs (Decidable (b.pub_date ≤ a.pub_date))

instance : IsTotal Post postGe := ⟨fun a b => Int.le_total b.pub_date a.pub_date⟩

instance : IsTrans Post postGe := ⟨fun _ _ _ h1 h2 => le_trans h2 h1⟩

/-- Source `comment_count=Count('comments')`: the live count of comments of a post,
computed at query time. -/
def comment_count (s : Store) (p : Post) : Nat :=
  (s.comments.filter (fun c => c.post == p.id)).length

/-- Source `get_posts(**kwargs)` (views.py:27): filter the posts table and order by
publication date descending; ties keep the store insertion order (stable
sort). -/
def get_posts (f : Filters) (s : Store) : List Post :=
  List.insertionSort postGe (s.posts.filter (matchesFilters f))

/-- The base filters of `get_published_posts` (views.py:17). -/
def base_filters (now : Time) : Filters :=
  { is_published := some true,
    category_is_published := some true,
    pub_date_lte := some now }

/-- Source `get_published_posts(**extra_filters)` (views.py:15): merge base
visibility filters with caller-supplied extras and delegate to `get_posts`. -/
def get_published_posts (now : Time) (extra : Filters) (s : Store) : List Post :=
  get_posts (mergeFilters (base_filters now) extra) s

/-- views.py:12. -/
def NUMBER_OF_PAGINATOR_PAGES : Nat := 10

/-- The untrusted `?page=` query parameter: absent, a non-numeric string, or
an integer. -/
inductive PageParam where
  | missing
  | nonNumeric
  | num (k : Int)
deriving DecidableEq

inductive PageErr where
  | notAnInteger
  | emptyPage
deriving DecidableEq

/-- Source `Paginator.num_pages` (Django, defaults `orphans=0`,
`allow_empty_first_page=True`): `ceil(max(1, count) / per_page)`. -/
def num_pages (count per_page : Nat) : Nat :=
  if count = 0 then 1 else (count + per_page - 1) / per_page

/-- Source `Paginator.validate_number` (Django): non-integers raise
`PageNotAnInteger`; integers below 1 or above `num_pages` raise
`EmptyPage`. -/
def validate_number (count per_page : Nat) : PageParam → Except PageErr Nat
  | .missing => .error .notAnInteger
  | .nonNumeric => .error .notAnInteger
  | .num k =>
      if k < 1 then .error .emptyPage
      else if (num_pages count per_page : Int) < k then .error .emptyPage
      else .ok k.toNat

/-- Source `Paginator.get_page` page-number resolution (Django): catch
`PageNotAnInteger` with page 1 and `EmptyPage` with the last page. -/
def get_page_number (count per_page : Nat) (p : PageParam) : Nat :=
  match validate_number count per_page p with
  | .ok n => n
  | .error .notAnInteger => 1
  | .error .emptyPage => num_pages count per_page

/-- The page object returned by the paginator. -/
structure Page where
  number : Nat
  object_list : List Post
  num_pages : Nat
deriving DecidableEq

/-- Source `get_paginator(request, queryset, number_of_pages)` (views.py:37):
paginate with page size `number_of_pages` (default 10) by the untrusted
`?page=` parameter. -/
def get_paginator (queryset : List Post) (page : PageParam)
    (number_of_pages : Nat) : Page :=
  let n := get_page_number queryset.length number_of_pages page
  { number := n,
    object_list := (queryset.drop ((n - 1) * number_of_pages)).take
      number_of_pages,
    num_pages := num_pages queryset.length number_of_pages }

/-- Outcome of a request handler: the not-found outcome, a rendered
template, or a redirect. -/
inductive HResult where
  | notFound
  | renderIndex (page : Page)
  | renderCategory (cat : Category) (page : Page)
  | renderDetail (post : Post) (comments : List Comment)
  | renderForm
  | renderProfile (u : User) (page : Page)
  | redirectDetail (post_id : Nat)
  | redirectIndex
  | redirectProfile (user : Nat)
deriving DecidableEq

inductive Method where
  | get
  | post
deriving DecidableEq

/-- Source `get_object_or_404(Post, id=post_id)`. -/
def findPost (s : Store) (post_id : Nat) : Option Post :=
  s.posts.find? (fun p => p.id == post_id)

/-- Source `get_object_or_404(Comment, id=comment_id)`. -/
def findComment (s : Store) (comment_id : Nat) : Option Comment :=
  s.comments.find? (fun c => c.id == comment_id)

/-- Source `get_object_or_404(Category, slug=category_slug, is_published=True)`
(views.py:55). -/
def find_published_category (s : Store) (slug : String) : Option Category :=
  s.categories.find? (fun c => c.slug == slug && c.is_published)

/-- Source `get_object_or_404(User, username=username)`. -/
def findUser (s : Store) (username : String) : Option User :=
  s.users.find? (fun u => u.username == username)

/-- The combined visibility predicate used by the second lookup of
`post_detail` (views.py:70). -/
def publicFilter (now : Time) (p : Post) : Bool :=
  p.is_published && p.category.is_published && decide (p.pub_date ≤ now)

/-- Source `index(request)` (views.py:45). -/
def index (s : Store) (now : Time) (page : PageParam) : HResult :=
  .renderIndex
    (get_paginator (get_published_posts now {} s) page NUMBER_OF_PAGINATOR_PAGES)

/-- Source `category_posts(request, category_slug)` (views.py:53). -/
def category_posts (s : Store) (now : Time) (slug : String)
    (page : PageParam) : HResult :=
  match find_published_category s slug with
  | none => .notFound
  | some cat =>
      .renderCategory cat
        (get_paginator (get_published_posts now { category := some cat } s)
          page NUMBER_OF_PAGINATOR_PAGES)

/-- Source `post_detail(request, post_id)` (views.py:66): look the post up by id;
if the viewer is not the author, look it up again with the visibility
filters (failing with not-found when they do not hold). -/
def post_detail (s : Store) (viewer : Option Nat) (now : Time)
    (post_id : Nat) : HResult :=
  match findPost s post_id with
  | none => .notFound
  | some post =>
      if viewer == some post.author then
        .renderDetail post (s.comments.filter (fun c => c.post == post.id))
      else
        match s.posts.find? (fun p => p.id == post_id && publicFilter now p) with
        | none => .notFound
        | some p => .renderDetail p (s.comments.filter (fun c => c.post == p.id))

/-- The editable fields bound by `PostForm`. -/
structure PostFields where
  title : String
  text : String
  category : Category
  pub_date : Time
  is_published : Bool
deriving DecidableEq

/-- Source `form.save()` on an edit: overwrite the bound fields, keep id and
author. -/
def applyPostFields (fd : PostFields) (p : Post) : Post :=
  { p with title := fd.title, text := fd.text, category := fd.category,
           pub_date := fd.pub_date, is_published := fd.is_published }

/-- Persist an updated row (matched by primary key). -/
def updatePost (s : Store) (p : Post) : Store :=
  { s with posts := s.posts.map (fun q => if q.id == p.id then p else q) }

def updateComment (s : Store) (c : Comment) : Store :=
  { s with comments := s.comments.map (fun d => if d.id == c.id then c else d) }

/-- Source `post.delete()`: remove the row with this primary key. -/
def deletePostFromStore (s : Store) (post_id : Nat) : Store :=
  { s with posts := s.posts.filter (fun q => !(q.id == post_id)) }

def deleteCommentFromStore (s : Store) (comment_id : Nat) : Store :=
  { s with comments := s.comments.filter (fun d => !(d.id == comment_id)) }

/-- Source `edit_post(request, post_id)` (views.py:98).  `form` is `some fd` when
`form.is_valid()`; the handler requires an authenticated `user`. -/
def edit_post (s : Store) (user : Nat) (post_id : Nat)
    (form : Option PostFields) : HResult × Store :=
  match findPost s post_id with
  | none => (.notFound, s)
  | some post =>
      if user != post.author then (.redirectDetail post_id, s)
      else
        match form with
        | some fd =>
            (.redirectDetail post_id, updatePost s (applyPostFields fd post))
        | none => (.renderForm, s)

/-- Source `delete_post(request, post_id)` (views.py:112). -/
def delete_post (s : Store) (user : Nat) (method : Method)
    (post_id : Nat) : HResult × Store :=
  match findPost s post_id with
  | none => (.notFound, s)
  | some post =>
      if user != post.author then (.redirectDetail post_id, s)
      else
        match method with
        | .post => (.redirectIndex, deletePostFromStore s post.id)
        | .get => (.renderForm, s)

/-- A fresh primary key for an inserted comment. -/
def freshCommentId (s : Store) : Nat :=
  (s.comments.map Comment.id).foldr max 0 + 1

/-- Source `add_comment(request, post_id)` (views.py:126): the post lookup is by id
only; a valid form inserts a comment authored by the requesting user and the
handler always redirects to the post detail view. -/
def add_comment (s : Store) (user : Nat) (post_id : Nat)
    (form : Option String) : HResult × Store :=
  match findPost s post_id with
  | none => (.notFound, s)
  | some post =>
      match form with
      | some text =>
          (.redirectDetail post_id,
           { s with comments :=
              s.comments ++ [⟨freshCommentId s, user, post.id, text⟩] })
      | none => (.redirectDetail post_id, s)

/-- Source `edit_comment(request, post_id, comment_id)` (views.py:139): the comment
is located by `comment_id` alone; `post_id` is only used as the redirect
target. -/
def edit_comment (s : Store) (user : Nat) (post_id comment_id : Nat)
    (form : Option String) : HResult × Store :=
  match findComment s comment_id with
  | none => (.notFound, s)
  | some c =>
      if user != c.author then (.redirectDetail post_id, s)
      else
        match form with
        | some text =>
            (.redirectDetail post_id, updateComment s { c with text := text })
        | none => (.renderForm, s)

/-- Source `delete_comment(request, post_id, comment_id)` (views.py:154). -/
def delete_comment (s : Store) (user : Nat) (method : Method)
    (post_id comment_id : Nat) : HResult × Store :=
  match findComment s comment_id with
  | none => (.notFound, s)
  | some c =>
      if user != c.author then (.redirectDetail post_id, s)
      else
        match method with
        | .post => (.redirectDetail post_id, deleteCommentFromStore s c.id)
        | .get => (.renderForm, s)

/-- The queryset shown on a profile page (views.py:172): all of the user's
posts when viewing one's own profile, only the published ones otherwise. -/
def profile_queryset (s : Store) (viewer : Option Nat) (now : Time)
    (u : User) : List Post :=
  if viewer == some u.id then get_posts { author := some u.id } s
  else get_published_posts now { author := some u.id } s

/-- Source `profile(request, username)` (views.py:167). -/
def profile (s : Store) (viewer : Option Nat) (now : Time) (username : String)
    (page : PageParam) : HResult :=
  match findUser s username with
  | none => .notFound
  | some u =>
      .renderProfile u
        (get_paginator (profile_queryset s viewer now u) page
          NUMBER_OF_PAGINATOR_PAGES)

/-- Primary keys of posts are unique in a well-formed store. -/
def postIdsUnique (s : Store) : Prop := (s.posts.map Post.id).Nodup

instance (s : Store) : Decidable (postIdsUnique s) :=
  inferInstanceAs (Decidable ((s.posts.map Post.id).Nodup))

/-! Concrete sample data used by witnesses. -/

def catPub : Category := ⟨1, "nature", true⟩

def catHidden : Category := ⟨2, "drafts", false⟩

/-- Publicly visible at `now = 100`. -/
def postA : Post := ⟨1, 10, "a", "ta", catPub, 50, true⟩

/-- Unpublished. -/
def postB : Post := ⟨2, 10, "b", "tb", catPub, 50, false⟩

/-- In an unpublished category. -/
def postC : Post := ⟨3, 11, "c", "tc", catHidden, 60, true⟩

/-- Future-dated at `now = 100`. -/
def postD : Post := ⟨4, 10, "d", "td", catPub, 200, true⟩

def alice : User := ⟨10, "alice"⟩

def bob : User := ⟨11, "bob"⟩

def comment1 : Comment := ⟨1, 11, 1, "hi"⟩

def sampleStore : Store :=
  ⟨[postA, postB, postC, postD], [comment1], [catPub, catHidden], [alice, bob]⟩

/-! Helper lemmas. -/

theorem mem_get_posts {s : Store} {f : Filters} {p : Post} :
    p ∈ get_posts f s ↔ p ∈ s.posts ∧ matchesFilters f p = true := by
  simp [get_posts, List.mem_insertionSort, List.mem_filter]

/-- C1: for every post `p` of the store, `p` appears in the public index
listing (the result of `get_published_posts` with no extra filters) iff
`p.is_published = true`, `p.category.is_published = true` and
`p.pub_date ≤ now`. -/
theorem C1_public_index_membership (s : Store) (now : Time) (p : Post)
    (hp : p ∈ s.posts) :
    p ∈ get_published_posts now {} s ↔
      (p.is_published = true ∧ p.category.is_published = true ∧
       p.pub_date ≤ now) := by
  simp [get_published_posts, mem_get_posts, hp, matchesFilters, mergeFilters,
        base_filters, orOpt, matchOpt, and_assoc]

/-- Witness for C1: the membership criterion evaluated on a concrete store
at the publicly visible post `postA`. -/
theorem C1_public_index_membership_witness :
    postA ∈ get_published_posts 100 {} sampleStore ↔
      (postA.is_published = true ∧ postA.category.is_published = true ∧
       postA.pub_date ≤ 100) :=
  C1_public_index_membership sampleStore 100 postA (by decide)

/-- C9: every sequence produced by the query builder is ordered by
publication date descending; posts of equal publication date are kept in
store insertion order (the filtered-store order); and
`get_published_posts` is the same builder with the merged filters. -/
theorem C9_query_ordering (s : Store) (f : Filters) :
    (get_posts f s).Sorted postGe ∧
    (∀ d : Time,
      (get_posts f s).filter (fun p => p.pub_date == d)
        = (s.posts.filter (matchesFilters f)).filter
            (fun p => p.pub_date == d)) ∧
    (∀ (now : Time) (extra : Filters),
      get_published_posts now extra s
        = get_posts (mergeFilters (base_filters now) extra) s) := by
  refine ⟨List.sorted_insertionSort postGe _, fun d => ?_, fun _ _ => rfl⟩
  show (List.insertionSort postGe (s.posts.filter (matchesFilters f))).filter _
      = _
  set l := s.posts.filter (matchesFilters f) with hl
  have hpw : (l.filter (fun p => p.pub_date == d)).Pairwise postGe := by
    apply List.pairwise_of_forall_mem_list
    intro a ha b hb
    have ha' := (List.mem_filter.mp ha).2
    have hb' := (List.mem_filter.mp hb).2
    simp only [beq_iff_eq] at ha' hb'
    simp [postGe, ha', hb']
  have hsub : List.Sublist (l.filter (fun p => p.pub_date == d))
      (List.insertionSort postGe l) :=
    List.sublist_insertionSort hpw (List.filter_sublist l)
  have hsub2 := hsub.filter (fun p => p.pub_date == d)
  have hself : (l.filter (fun p => p.pub_date == d)).filter
      (fun p => p.pub_date == d) = l.filter (fun p => p.pub_date == d) :=
    List.filter_eq_self.mpr (fun a ha => (List.mem_filter.mp ha).2)
  rw [hself] at hsub2
  have hperm : ((List.insertionSort postGe l).filter
        (fun p => p.pub_date == d)).Perm
      (l.filter (fun p => p.pub_date == d)) :=
    (List.perm_insertionSort postGe l).filter _
  exact (hsub2.eq_of_length hperm.length_eq.symm).symm

theorem visibility_lookup_eq_none (s : Store) (p : Post) (now : Time)
    (hids : postIdsUnique s) (hp : p ∈ s.posts)
    (hfail : publicFilter now p = false) :
    s.posts.find? (fun q => q.id == p.id && publicFilter now q) = none := by
  rw [List.find?_eq_none]
  intro q hq
  simp only [Bool.and_eq_true, beq_iff_eq, not_and]
  intro hid
  have hqp : q = p := List.inj_on_of_nodup_map hids hq hp hid
  subst hqp
  simp [hfail]

/-- C2: a post `p` failing the public-visibility predicate still renders on
the detail view when the viewer is `p`'s author, and still appears in that
author's own profile listing; for any viewer other than the author the
detail view gives the not-found outcome. -/
theorem C2_owner_bypass (s : Store) (now : Time) (p : Post) (u : User)
    (viewer : Option Nat)
    (hids : postIdsUnique s)
    (hfind : findPost s p.id = some p)
    (hfail : publicFilter now p = false)
    (hu : u.id = p.author)
    (hv : viewer ≠ some p.author) :
    post_detail s (some p.author) now p.id
        = .renderDetail p (s.comments.filter (fun c => c.post == p.id)) ∧
    p ∈ profile_queryset s (some p.author) now u ∧
    post_detail s viewer now p.id = .notFound := by
  have hp : p ∈ s.posts := List.mem_of_find?_eq_some hfind
  refine ⟨?_, ?_, ?_⟩
  · simp [post_detail, hfind]
  · simp [profile_queryset, hu, mem_get_posts, hp, matchesFilters, matchOpt]
  · have hb : (viewer == some p.author) = false := by
      simpa [beq_eq_false_iff_ne] using hv
    simp [post_detail, hfind, hb,
          visibility_lookup_eq_none s p now hids hp hfail]

/-- Witness for C2: the unpublished post `postB` renders for its author
`alice`, appears in her own profile listing, and is not found for `bob`. -/
theorem C2_owner_bypass_witness :
    post_detail sampleStore (some postB.author) 100 postB.id
        = .renderDetail postB
            (sampleStore.comments.filter (fun c => c.post == postB.id)) ∧
    postB ∈ profile_queryset sampleStore (some postB.author) 100 alice ∧
    post_detail sampleStore (some 11) 100 postB.id = .notFound :=
  C2_owner_bypass sampleStore 100 postB alice (some 11) (by decide)
    (by decide) (by decide) (by decide) (by decide)

/-- C3: a non-author invoking the edit or delete handler of a post or
comment is redirected to the resource's post detail view and the store is
returned unchanged, for every method and form input. -/
theorem C3_non_author_redirect (s : Store) (u : Nat) (p : Post) (c : Comment)
    (m : Method) (fdp : Option PostFields) (fdc : Option String) :
    (findPost s p.id = some p → u ≠ p.author →
      edit_post s u p.id fdp = (.redirectDetail p.id, s) ∧
      delete_post s u m p.id = (.redirectDetail p.id, s)) ∧
    (findComment s c.id = some c → u ≠ c.author →
      edit_comment s u c.post c.id fdc = (.redirectDetail c.post, s) ∧
      delete_comment s u m c.post c.id = (.redirectDetail c.post, s)) := by
  constructor
  · intro hf hne
    have hb : (u != p.author) = true := by simp [bne_iff_ne, hne]
    exact ⟨by simp [edit_post, hf, hb], by simp [delete_post, hf, hb]⟩
  · intro hf hne
    have hb : (u != c.author) = true := by simp [bne_iff_ne, hne]
    exact ⟨by simp [edit_comment, hf, hb], by simp [delete_comment, hf, hb]⟩

/-- Witness for C3: user 99 owns neither `postA` nor `comment1`; every edit
and delete handler redirects and leaves the concrete store unchanged, even
on a POST request. -/
theorem C3_non_author_redirect_witness :
    (edit_post sampleStore 99 postA.id none
        = (.redirectDetail postA.id, sampleStore) ∧
     delete_post sampleStore 99 .post postA.id
        = (.redirectDetail postA.id, sampleStore)) ∧
    (edit_comment sampleStore 99 comment1.post comment1.id none
        = (.redirectDetail comment1.post, sampleStore) ∧
     delete_comment sampleStore 99 .post comment1.post comment1.id
        = (.redirectDetail comment1.post, sampleStore)) :=
  ⟨(C3_non_author_redirect sampleStore 99 postA comment1 .post none none).1
      (by decide) (by decide),
   (C3_non_author_redirect sampleStore 99 postA comment1 .post none none).2
      (by decide) (by decide)⟩

/-- C4: when the requested slug matches no category, or only a category
with `is_published = false`, the category listing gives the not-found
outcome (never a rendered page). -/
theorem C4_unpublished_category_not_found (s : Store) (now : Time)
    (slug : String) (pg : PageParam)
    (h : ∀ c ∈ s.categories, c.slug = slug → c.is_published = false) :
    category_posts s now slug pg = .notFound := by
  have hn : find_published_category s slug = none := by
    rw [find_published_category, List.find?_eq_none]
    intro c hc
    simp only [Bool.and_eq_true, beq_iff_eq, not_and]
    intro hs
    simp [h c hc hs]
  simp [category_posts, hn]

/-- Witness for C4: the slug of the unpublished category `catHidden` gives
not-found on the concrete store. -/
theorem C4_unpublished_category_not_found_witness :
    category_posts sampleStore 100 "drafts" .missing = .notFound :=
  C4_unpublished_category_not_found sampleStore 100 "drafts" .missing
    (by decide)

theorem one_le_num_pages (count : Nat) : 1 ≤ num_pages count 10 := by
  unfold num_pages
  split
  · omega
  · omega

theorem get_page_number_pos (count : Nat) (pg : PageParam) :
    1 ≤ get_page_number count 10 pg := by
  unfold get_page_number validate_number
  cases pg with
  | missing => simp
  | nonNumeric => simp
  | num k =>
      by_cases h1 : k < 1
      · simp [h1, one_le_num_pages]
      · by_cases h2 : (num_pages count 10 : Int) < k
        · simp [h1, h2, one_le_num_pages]
        · simp only [h1, if_false, h2]
          omega

theorem full_page_length (len n : Nat) (h1 : 1 ≤ n)
    (h2 : n < num_pages len 10) :
    min 10 (len - (n - 1) * 10) = 10 := by
  unfold num_pages at h2
  split at h2
  · omega
  · omega

/-- C5: the paginator slices with fixed page size 10 (every page has at
most 10 items and every non-last page exactly 10); a missing or
non-numeric page parameter resolves to page 1; a numeric page parameter
above the page count clamps to the last page; and an empty result sequence
gives the displayable page 1 of 1 with an empty slice, with no failure
(the paginator is a total function). -/
theorem C5_paginator_behavior (l : List Post) (k : Int)
    (hk : (num_pages l.length NUMBER_OF_PAGINATOR_PAGES : Int) < k) :
    NUMBER_OF_PAGINATOR_PAGES = 10 ∧
    (get_paginator l .missing NUMBER_OF_PAGINATOR_PAGES).number = 1 ∧
    (get_paginator l .nonNumeric NUMBER_OF_PAGINATOR_PAGES).number = 1 ∧
    (get_paginator l (.num k) NUMBER_OF_PAGINATOR_PAGES).number
        = num_pages l.length NUMBER_OF_PAGINATOR_PAGES ∧
    get_paginator ([] : List Post) .missing NUMBER_OF_PAGINATOR_PAGES
        = ⟨1, [], 1⟩ ∧
    (∀ (m : List Post) (pg : PageParam),
      (get_paginator m pg NUMBER_OF_PAGINATOR_PAGES).object_list.length
          ≤ 10 ∧
      ((get_paginator m pg NUMBER_OF_PAGINATOR_PAGES).number
          < num_pages m.length NUMBER_OF_PAGINATOR_PAGES →
        (get_paginator m pg NUMBER_OF_PAGINATOR_PAGES).object_list.length
          = 10)) := by
  rw [NUMBER_OF_PAGINATOR_PAGES] at hk
  refine ⟨rfl, ?_, ?_, ?_, by decide, fun m pg => ⟨?_, ?_⟩⟩
  · simp [get_paginator, get_page_number, validate_number,
          NUMBER_OF_PAGINATOR_PAGES]
  · simp [get_paginator, get_page_number, validate_number,
          NUMBER_OF_PAGINATOR_PAGES]
  · have h1 : ¬ k < 1 := by
      have := one_le_num_pages l.length
      omega
    simp [get_paginator, get_page_number, validate_number,
          NUMBER_OF_PAGINATOR_PAGES, h1, hk]
  · simp only [get_paginator, NUMBER_OF_PAGINATOR_PAGES,
               List.length_take, List.length_drop]
    omega
  · intro hlt
    simp only [get_paginator, NUMBER_OF_PAGINATOR_PAGES] at hlt ⊢
    simp only [List.length_take, List.length_drop]
    exact full_page_length m.length _ (get_page_number_pos m.length pg) hlt

/-- Witness for C5 at a 25-element list and the out-of-range page 99:
`num_pages = 3` and the paginator clamps to page 3. -/
theorem C5_paginator_behavior_witness :
    NUMBER_OF_PAGINATOR_PAGES = 10 ∧
    (get_paginator (List.replicate 25 postA) .missing
        NUMBER_OF_PAGINATOR_PAGES).number = 1 ∧
    (get_paginator (List.replicate 25 postA) .nonNumeric
        NUMBER_OF_PAGINATOR_PAGES).number = 1 ∧
    (get_paginator (List.replicate 25 postA) (.num 99)
        NUMBER_OF_PAGINATOR_PAGES).number
      = num_pages (List.replicate 25 postA).length
          NUMBER_OF_PAGINATOR_PAGES ∧
    get_paginator ([] : List Post) .missing NUMBER_OF_PAGINATOR_PAGES
        = ⟨1, [], 1⟩ ∧
    (∀ (m : List Post) (pg : PageParam),
      (get_paginator m pg NUMBER_OF_PAGINATOR_PAGES).object_list.length
          ≤ 10 ∧
      ((get_paginator m pg NUMBER_OF_PAGINATOR_PAGES).number
          < num_pages m.length NUMBER_OF_PAGINATOR_PAGES →
        (get_paginator m pg NUMBER_OF_PAGINATOR_PAGES).object_list.length
          = 10)) :=
  C5_paginator_behavior (List.replicate 25 postA) 99 (by decide)

/-- C6: the profile listing of user `u` shown to viewer `v` contains, for
`v ≠ u`, exactly `u`'s posts satisfying the public-visibility predicate,
and for `v = u` all of `u`'s posts with no visibility filter. -/
theorem C6_profile_listing (s : Store) (now : Time) (u : User)
    (viewer : Option Nat) (p : Post) (hp : p ∈ s.posts) :
    (viewer ≠ some u.id →
      (p ∈ profile_queryset s viewer now u ↔
        (p.author = u.id ∧ publicFilter now p = true))) ∧
    (p ∈ profile_queryset s (some u.id) now u ↔ p.author = u.id) := by
  constructor
  · intro hv
    have hb : (viewer == some u.id) = false := by
      simpa [beq_eq_false_iff_ne] using hv
    simp [profile_queryset, hb, get_published_posts, mem_get_posts, hp,
          matchesFilters, mergeFilters, base_filters, orOpt, matchOpt,
          publicFilter]
    tauto
  · simp [profile_queryset, mem_get_posts, hp, matchesFilters, matchOpt]
    tauto

/-- Witness for C6: on the concrete store, `bob` viewing `alice`'s profile
does not see her unpublished `postB`, while `alice` sees it herself. -/
theorem C6_profile_listing_witness :
    ((some bob.id : Option Nat) ≠ some alice.id →
      (postB ∈ profile_queryset sampleStore (some bob.id) 100 alice ↔
        (postB.author = alice.id ∧ publicFilter 100 postB = true))) ∧
    (postB ∈ profile_queryset sampleStore (some alice.id) 100 alice ↔
      postB.author = alice.id) :=
  C6_profile_listing sampleStore 100 alice (some bob.id) postB (by decide)

/-- C7: a delete request by the resource's author removes nothing on a
non-POST request (a confirmation form is rendered and the store is
unchanged); only the POST confirmation performs the delete. -/
theorem C7_two_phase_delete (s : Store) (p : Post) (c : Comment) :
    (findPost s p.id = some p →
      delete_post s p.author .get p.id = (.renderForm, s) ∧
      delete_post s p.author .post p.id
        = (.redirectIndex, deletePostFromStore s p.id) ∧
      p ∉ (delete_post s p.author .post p.id).2.posts) ∧
    (findComment s c.id = some c →
      delete_comment s c.author .get c.post c.id = (.renderForm, s) ∧
      delete_comment s c.author .post c.post c.id
        = (.redirectDetail c.post, deleteCommentFromStore s c.id) ∧
      c ∉ (delete_comment s c.author .post c.post c.id).2.comments) := by
  constructor
  · intro hf
    refine ⟨by simp [delete_post, hf], by simp [delete_post, hf], ?_⟩
    simp [delete_post, hf, deletePostFromStore, List.mem_filter]
  · intro hf
    refine ⟨by simp [delete_comment, hf], by simp [delete_comment, hf], ?_⟩
    simp [delete_comment, hf, deleteCommentFromStore, List.mem_filter]

/-- Witness for C7: on the concrete store, a GET to either delete route
changes nothing and a POST removes exactly the targeted resource. -/
theorem C7_two_phase_delete_witness :
    (delete_post sampleStore postA.author .get postA.id
        = (.renderForm, sampleStore) ∧
     delete_post sampleStore postA.author .post postA.id
        = (.redirectIndex, deletePostFromStore sampleStore postA.id) ∧
     postA ∉ (delete_post sampleStore postA.author .post postA.id).2.posts) ∧
    (delete_comment sampleStore comment1.author .get comment1.post comment1.id
        = (.renderForm, sampleStore) ∧
     delete_comment sampleStore comment1.author .post comment1.post
          comment1.id
        = (.redirectDetail comment1.post,
           deleteCommentFromStore sampleStore comment1.id) ∧
     comment1 ∉ (delete_comment sampleStore comment1.author .post
          comment1.post comment1.id).2.comments) :=
  ⟨(C7_two_phase_delete sampleStore postA comment1).1 (by decide),
   (C7_two_phase_delete sampleStore postA comment1).2 (by decide)⟩

/-- C8: any authenticated user `u` submitting a valid comment on any
existing post `p` gets the comment inserted with author `u` attached to
`p`, and is redirected to `p`'s detail view; no visibility hypothesis on
`p` is needed. -/
theorem C8_add_comment_no_visibility_check (s : Store) (u : Nat) (p : Post)
    (text : String) (hfind : findPost s p.id = some p) :
    add_comment s u p.id (some text)
      = (.redirectDetail p.id,
         { s with comments :=
            s.comments ++ [⟨freshCommentId s, u, p.id, text⟩] }) := by
  simp [add_comment, hfind]

/-- Witness for C8: `bob` comments on `postB`, which is unpublished and not
publicly visible to him; the comment is created anyway. -/
theorem C8_add_comment_no_visibility_check_witness :
    add_comment sampleStore bob.id postB.id (some "hello")
      = (.redirectDetail postB.id,
         { sampleStore with comments :=
            sampleStore.comments ++
              [⟨freshCommentId sampleStore, bob.id, postB.id, "hello"⟩] }) :=
  C8_add_comment_no_visibility_check sampleStore bob.id postB "hello"
    (by decide)

/-- C10: the comment edit and delete handlers locate the comment by
`comment_id` alone: for any path post id `q` — related to the comment or
not, existing or not — the author's request operates on the comment and
redirects to the detail view of `q`. -/
theorem C10_comment_lookup_ignores_post_path (s : Store) (c : Comment)
    (q : Nat) (text : String) (hc : findComment s c.id = some c) :
    edit_comment s c.author q c.id (some text)
        = (.redirectDetail q, updateComment s { c with text := text }) ∧
    delete_comment s c.author .post q c.id
        = (.redirectDetail q, deleteCommentFromStore s c.id) ∧
    c ∉ (delete_comment s c.author .post q c.id).2.comments := by
  refine ⟨by simp [edit_comment, hc], by simp [delete_comment, hc], ?_⟩
  simp [delete_comment, hc, deleteCommentFromStore, List.mem_filter]

/-- Witness for C10: post id 999 exists nowhere in the concrete store, yet
editing and deleting `comment1` under it succeeds and redirects to 999. -/
theorem C10_comment_lookup_ignores_post_path_witness :
    edit_comment sampleStore comment1.author 999 comment1.id (some "edited")
        = (.redirectDetail 999,
           updateComment sampleStore { comment1 with text := "edited" }) ∧
    delete_comment sampleStore comment1.author .post 999 comment1.id
        = (.redirectDetail 999, deleteCommentFromStore sampleStore
            comment1.id) ∧
    comment1 ∉ (delete_comment sampleStore comment1.author .post 999
        comment1.id).2.comments :=
  C10_comment_lookup_ignores_post_path sampleStore comment1 999 "edited"
    (by decide)

end Blogicum
